import Mathlib

/-
Verification of the Memory Palace AI service (Python source under AI/).

The development shallowly embeds the request-level logic of the service:
Python values decoded from JSON become the inductive type PyVal, Python
dictionaries become association lists, model invocations and third-party
library calls (the chat-model runtime, base64 decoding, face encoding)
become explicit parameters or Except/Option inputs, and Python floats are
modelled as rationals.  Every definition is a direct transliteration of
the corresponding Python function.
-/

set_option maxRecDepth 100000

namespace MemoryPalace

/-- A Python value as produced by json.loads: None, bool, number, string,
list, or dict (modelled as an association list keyed by strings). -/
inductive PyVal where
  | none : PyVal
  | bool : Bool → PyVal
  | num : Rat → PyVal
  | str : String → PyVal
  | list : List PyVal → PyVal
  | dict : List (String × PyVal) → PyVal

/-- Python dict.get with a default: first binding of the key, else the default. -/
def pyGet (kvs : List (String × PyVal)) (k : String) (d : PyVal) : PyVal :=
  match kvs.lookup k with
  | Option.some v => v
  | Option.none => d

/-- Python equality test between an arbitrary value and a string literal
(v == "lit" is true only when v is that very string). -/
def pyEqStr (v : PyVal) (lit : String) : Bool :=
  match v with
  | PyVal.str t => t == lit
  | _ => false

/-- Drop leading and trailing whitespace, as Python str.strip does. -/
def pyStrip (s : String) : String :=
  String.mk (((s.data.dropWhile Char.isWhitespace).reverse.dropWhile Char.isWhitespace).reverse)

/-- Numeric value of a list of decimal digit characters. -/
def digitsToNat (cs : List Char) : Nat :=
  cs.foldl (fun a c => a * 10 + (c.toNat - 48)) 0

/-- True when the list is nonempty and all characters are decimal digits. -/
def isDigits (cs : List Char) : Bool :=
  !cs.isEmpty && cs.all Char.isDigit

/-- Parse an unsigned decimal literal, with an optional fractional part,
into a rational.  Models the numeric core of Python float(str). -/
def parseFloatBody (cs : List Char) : Option Rat :=
  match cs.splitOn '.' with
  | [ip] => if isDigits ip then Option.some ((digitsToNat ip : Rat)) else Option.none
  | [ip, fp] =>
      if isDigits ip && fp.isEmpty then Option.some ((digitsToNat ip : Rat))
      else if ip.isEmpty && isDigits fp then
        Option.some ((digitsToNat fp : Rat) / ((10 ^ fp.length : Nat) : Rat))
      else if isDigits ip && isDigits fp then
        Option.some ((digitsToNat ip : Rat) + (digitsToNat fp : Rat) / ((10 ^ fp.length : Nat) : Rat))
      else Option.none
  | _ => Option.none

/-- Python float(str): strip whitespace, optional sign, decimal body.
IEEE special spellings (nan, inf) and exponents are out of scope; the
clamping theorems below hold for every possible parse outcome. -/
def pyFloatOfString (s : String) : Option Rat :=
  match (pyStrip s).data with
  | '-' :: rest => (parseFloatBody rest).map (fun q => -q)
  | '+' :: rest => parseFloatBody rest
  | l => parseFloatBody l

/-- Python float(x) coercion on a decoded JSON value: numbers pass through,
booleans become 0 or 1, strings are parsed, everything else raises
(None, lists, dicts), modelled as Option.none. -/
def coerceFloat (v : PyVal) : Option Rat :=
  match v with
  | PyVal.num q => Option.some q
  | PyVal.bool b => Option.some (if b then 1 else 0)
  | PyVal.str s => pyFloatOfString s
  | _ => Option.none

/-- The validated shape returned by ProactiveAnalysisService: the four keys
of the dictionary built by _validate_analysis_result / _get_default_analysis.
PyVal.none in anniversary_type stands for Python None (absence). -/
structure AnalysisResult where
  anniversary_type : PyVal
  seasonal_tags : List PyVal
  proactive_score : Rat
  reasoning : PyVal

/-- ProactiveAnalysisService._validate_analysis_result: normalize the literal
string "null" to None, force seasonal_tags to a list truncated to 3 entries,
coerce proactive_score to a float clamped into [0, 5] with 0 on coercion
failure, and default the reasoning text. -/
def validateAnalysisResult (raw : List (String × PyVal)) : AnalysisResult :=
  let anniversary0 := pyGet raw "anniversary_type" PyVal.none
  let anniversary := if pyEqStr anniversary0 "null" then PyVal.none else anniversary0
  let tags :=
    match pyGet raw "seasonal_tags" (PyVal.list []) with
    | PyVal.list l => l
    | _ => []
  let score :=
    match coerceFloat (pyGet raw "proactive_score" (PyVal.num 0)) with
    | Option.some q => max 0 (min 5 q)
    | Option.none => 0
  { anniversary_type := anniversary
    seasonal_tags := tags.take 3
    proactive_score := score
    reasoning := pyGet raw "reasoning" (PyVal.str "No reasoning provided.") }

/-- ProactiveAnalysisService._get_default_analysis. -/
def defaultAnalysis : AnalysisResult :=
  { anniversary_type := PyVal.none
    seasonal_tags := []
    proactive_score := 0
    reasoning := PyVal.str "Analysis failed, using default values." }

/-- ProactiveAnalysisService.analyze_memory.  The chat-model invocation is
an explicit input: Except.error for a raised exception, Except.ok with the
raw reply text otherwise.  JSON decoding is the parse parameter; a reply
that decodes to a non-dict makes raw_result.get raise AttributeError, which
the blanket except clause turns into the default result. -/
def analyzeMemory (parse : String → Option PyVal) (ready : Bool)
    (call : Except Unit String) : AnalysisResult :=
  if !ready then defaultAnalysis
  else
    match call with
    | Except.error _ => defaultAnalysis
    | Except.ok raw =>
      match parse raw with
      | Option.none => defaultAnalysis
      | Option.some (PyVal.dict kvs) => validateAnalysisResult kvs
      | Option.some _ => defaultAnalysis

/-- The fixed anniversary label set listed in the analysis prompt. -/
def anniversaryLabels : List String :=
  ["work", "graduation", "birthday", "wedding", "anniversary", "retirement", "death"]

/-- Concrete malformed model reply: a non-numeric score and a non-list tags value. -/
def rawReplyBad : List (String × PyVal) :=
  [("proactive_score", PyVal.str "9x"), ("seasonal_tags", PyVal.str "not-a-list")]

/-- Concrete out-of-range model reply: score 9 and four seasonal tags. -/
def rawReplyBig : List (String × PyVal) :=
  [("proactive_score", PyVal.num 9),
   ("seasonal_tags", PyVal.list [PyVal.str "a", PyVal.str "b", PyVal.str "c", PyVal.str "d"])]

theorem validate_score_eq (raw : List (String × PyVal)) :
    (validateAnalysisResult raw).proactive_score =
      match coerceFloat (pyGet raw "proactive_score" (PyVal.num 0)) with
      | Option.some q => max 0 (min 5 q)
      | Option.none => 0 := rfl

theorem validate_tags_eq (raw : List (String × PyVal)) :
    (validateAnalysisResult raw).seasonal_tags =
      (match pyGet raw "seasonal_tags" (PyVal.list []) with
       | PyVal.list l => l
       | _ => []).take 3 := rfl

theorem validate_ann_eq (raw : List (String × PyVal)) :
    (validateAnalysisResult raw).anniversary_type =
      if pyEqStr (pyGet raw "anniversary_type" PyVal.none) "null" then PyVal.none
      else pyGet raw "anniversary_type" PyVal.none := rfl

/-- C1: for every raw analysis dictionary, the validated result has
proactive_score in [0, 5] and at most 3 seasonal tags; a non-list
seasonal_tags value becomes the empty list and a list is truncated to its
first 3 entries; the score is coerced to a number and clamped into [0, 5],
and a coercion failure yields score 0. -/
theorem analysis_validation_bounds (raw : List (String × PyVal)) :
    0 ≤ (validateAnalysisResult raw).proactive_score ∧
    (validateAnalysisResult raw).proactive_score ≤ 5 ∧
    (validateAnalysisResult raw).seasonal_tags.length ≤ 3 ∧
    (∀ v, pyGet raw "seasonal_tags" (PyVal.list []) = v → (∀ l, v ≠ PyVal.list l) →
      (validateAnalysisResult raw).seasonal_tags = []) ∧
    (∀ l, pyGet raw "seasonal_tags" (PyVal.list []) = PyVal.list l →
      (validateAnalysisResult raw).seasonal_tags = l.take 3) ∧
    (∀ v q, pyGet raw "proactive_score" (PyVal.num 0) = v → coerceFloat v = Option.some q →
      (validateAnalysisResult raw).proactive_score = max 0 (min 5 q)) ∧
    (∀ v, pyGet raw "proactive_score" (PyVal.num 0) = v → coerceFloat v = Option.none →
      (validateAnalysisResult raw).proactive_score = 0) := by
  refine ⟨?_, ?_, ?_, ?_, ?_, ?_, ?_⟩
  · rw [validate_score_eq]
    cases h : coerceFloat (pyGet raw "proactive_score" (PyVal.num 0)) with
    | none => simp
    | some q => exact le_max_left 0 _
  · rw [validate_score_eq]
    cases h : coerceFloat (pyGet raw "proactive_score" (PyVal.num 0)) with
    | none => norm_num
    | some q => exact max_le (by norm_num) (min_le_left 5 q)
  · rw [validate_tags_eq]
    simp [List.length_take_le 3]
  · intro v hv hnl
    rw [validate_tags_eq, hv]
    cases v with
    | list l => exact absurd rfl (hnl l)
    | none => rfl
    | bool b => rfl
    | num q => rfl
    | str s => rfl
    | dict kvs => rfl
  · intro l hl
    rw [validate_tags_eq, hl]
  · intro v q hv hq
    rw [validate_score_eq, hv, hq]
  · intro v hv hq
    rw [validate_score_eq, hv, hq]

/-- Witness for C1: the two concrete malformed replies are validated into
range, truncated, and defaulted exactly as the theorem states. -/
theorem analysis_validation_bounds_witness :
    (validateAnalysisResult rawReplyBad).seasonal_tags = [] ∧
    (validateAnalysisResult rawReplyBad).proactive_score = 0 ∧
    (validateAnalysisResult rawReplyBig).proactive_score = max 0 (min 5 (9 : Rat)) ∧
    (validateAnalysisResult rawReplyBig).seasonal_tags =
      [PyVal.str "a", PyVal.str "b", PyVal.str "c"] := by
  refine ⟨?_, ?_, ?_, ?_⟩
  · exact (analysis_validation_bounds rawReplyBad).2.2.2.1 _ rfl (fun l h => PyVal.noConfusion h)
  · exact (analysis_validation_bounds rawReplyBad).2.2.2.2.2.2 _ rfl rfl
  · exact (analysis_validation_bounds rawReplyBig).2.2.2.2.2.1 _ 9 rfl rfl
  · exact (analysis_validation_bounds rawReplyBig).2.2.2.2.1 _ rfl

/-- C7: whenever the analysis component is not ready, the model call raises,
or the reply fails to decode as JSON, analyze_memory returns exactly the
fixed default result (anniversary absent, empty tags, score 0, placeholder
reasoning); being a total function, it propagates no exception. -/
theorem analysis_failure_default (parse : String → Option PyVal) (ready : Bool)
    (call : Except Unit String) :
    defaultAnalysis =
      { anniversary_type := PyVal.none
        seasonal_tags := []
        proactive_score := 0
        reasoning := PyVal.str "Analysis failed, using default values." } ∧
    (ready = false → analyzeMemory parse ready call = defaultAnalysis) ∧
    (∀ e, call = Except.error e → analyzeMemory parse ready call = defaultAnalysis) ∧
    (∀ s, call = Except.ok s → parse s = Option.none →
      analyzeMemory parse ready call = defaultAnalysis) := by
  refine ⟨rfl, ?_, ?_, ?_⟩
  · intro h; subst h; rfl
  · intro e h; subst h; cases ready <;> rfl
  · intro s h hp
    subst h
    cases ready with
    | false => rfl
    | true => simp [analyzeMemory, hp]

/-- Witness for C7: a reply that does not parse as JSON yields the default. -/
theorem analysis_failure_default_witness :
    analyzeMemory (fun _ => Option.none) true (Except.ok "not json") = defaultAnalysis :=
  (analysis_failure_default (fun _ => Option.none) true
    (Except.ok "not json")).2.2.2 "not json" rfl rfl

/-- C10: the anniversary_type value of the model reply is passed through
verbatim unless it is the literal string "null" or the key is missing (both
yield absence); membership in the fixed anniversary label set is not
enforced, witnessed by the string "pizza" passing through. -/
theorem anniversary_passthrough :
    (∀ raw v, pyGet raw "anniversary_type" PyVal.none = v → pyEqStr v "null" = false →
      (validateAnalysisResult raw).anniversary_type = v) ∧
    (∀ raw, pyGet raw "anniversary_type" PyVal.none = PyVal.str "null" →
      (validateAnalysisResult raw).anniversary_type = PyVal.none) ∧
    (∀ raw, raw.lookup "anniversary_type" = Option.none →
      (validateAnalysisResult raw).anniversary_type = PyVal.none) ∧
    ((validateAnalysisResult [("anniversary_type", PyVal.str "pizza")]).anniversary_type =
        PyVal.str "pizza" ∧
      anniversaryLabels.contains "pizza" = false) := by
  refine ⟨?_, ?_, ?_, rfl, rfl⟩
  · intro raw v hv hne
    rw [validate_ann_eq, hv, hne]
    simp
  · intro raw h
    rw [validate_ann_eq, h]
    rfl
  · intro raw h
    rw [validate_ann_eq]
    simp [pyGet, h, pyEqStr]

/-- Witness for C10: a non-string value is also passed through verbatim. -/
theorem anniversary_passthrough_witness :
    (validateAnalysisResult [("anniversary_type", PyVal.bool true)]).anniversary_type =
      PyVal.bool true :=
  anniversary_passthrough.1 _ _ rfl rfl

/-- One scene of a cinematic show (models.ai_models.Scene). -/
structure Scene where
  memory_id : String
  narration : String

/-- The tagged union DirectorResponse = CinematicShow | NarrativeResponse. -/
inductive DirectorResponse where
  | cinematic (show_title : String) (scenes : List Scene) : DirectorResponse
  | narrative (message : String) : DirectorResponse

/-- True exactly on the cinematic variant. -/
def DirectorResponse.isCinematic : DirectorResponse → Bool
  | DirectorResponse.cinematic _ _ => true
  | DirectorResponse.narrative _ => false

/-- Pydantic validation of one scene object: a dict supplying string
memory_id and narration fields; anything else fails. -/
def mkScene (v : PyVal) : Option Scene :=
  match v with
  | PyVal.dict kvs =>
    match kvs.lookup "memory_id", kvs.lookup "narration" with
    | Option.some (PyVal.str i), Option.some (PyVal.str n) => Option.some { memory_id := i, narration := n }
    | _, _ => Option.none
  | _ => Option.none

/-- Pydantic validation of CinematicShow(**response_data): requires a string
show_title and a scenes list whose members all validate as scenes; extra
keys are ignored, any missing or ill-shaped field raises (Option.none). -/
def mkCinematic (kvs : List (String × PyVal)) : Option DirectorResponse :=
  match kvs.lookup "show_title", kvs.lookup "scenes" with
  | Option.some (PyVal.str t), Option.some (PyVal.list l) =>
      (l.mapM mkScene).map (DirectorResponse.cinematic t)
  | _, _ => Option.none

/-- Pydantic validation of NarrativeResponse(**response_data): requires a
string message field. -/
def mkNarrative (kvs : List (String × PyVal)) : Option DirectorResponse :=
  match kvs.lookup "message" with
  | Option.some (PyVal.str m) => Option.some (DirectorResponse.narrative m)
  | _ => Option.none

/-- The fixed apology narrative returned on every failure inside the try. -/
def fallbackNarrative : DirectorResponse :=
  DirectorResponse.narrative "I\x27m sorry, I had a little trouble organizing my thoughts."

/-- The narrative returned when the director component is not ready. -/
def notReadyNarrative : DirectorResponse :=
  DirectorResponse.narrative
    "Error: The AI Director service is not available or the configured model is not installed."

/-- ChatService.generate_response.  The single chat-model invocation is an
explicit input (Except.error for a raised exception, Except.ok with the raw
reply text); JSON decoding is the parse parameter.  Exceptions inside the
try (JSON errors, .get on a non-dict, pydantic validation errors, the
explicit ValueError on an unknown response_type) all reach the blanket
except clause, modelled by the Option.none branches collapsing to the
fallback apology narrative. -/
def generateResponse (parse : String → Option PyVal) (ready : Bool)
    (call : Except Unit String) : DirectorResponse :=
  if !ready then notReadyNarrative
  else
    let body : Option DirectorResponse :=
      match call with
      | Except.error _ => Option.none
      | Except.ok raw =>
        match parse raw with
        | Option.none => Option.none
        | Option.some (PyVal.dict kvs) =>
          if pyEqStr (pyGet kvs "response_type" PyVal.none) "cinematic_show" then mkCinematic kvs
          else if pyEqStr (pyGet kvs "response_type" PyVal.none) "narrative" then mkNarrative kvs
          else Option.none
        | Option.some _ => Option.none
    match body with
    | Option.some r => r
    | Option.none => fallbackNarrative

/-- Number of chat-model invocations generate_response performs: the source
calls self.client.chat exactly once inside the try when the component is
ready, and returns before any call otherwise. -/
def generateResponseCalls (ready : Bool) : Nat :=
  if ready then 1 else 0

/-- A parse outcome whose reply has response_type cinematic_show but supplies
neither show_title nor scenes. -/
def cinematicNoFields : String → Option PyVal :=
  fun _ => Option.some (PyVal.dict [("response_type", PyVal.str "cinematic_show")])

/-- A parse outcome for the reply with response_type narrative and message Hi. -/
def narrativeHi : String → Option PyVal :=
  fun _ => Option.some (PyVal.dict
    [("response_type", PyVal.str "narrative"), ("message", PyVal.str "Hi")])

/-- Counterexample to C2: a reply that parses as JSON with response_type
cinematic_show but without the required show_title and scenes fields is
answered with the fallback apology narrative, not with a cinematic-show
variant built from that JSON, although it is neither a different
response_type, nor a JSON parse error, nor a model-call failure. -/
theorem director_validation_cex :
    generateResponse cinematicNoFields true (Except.ok "reply") = fallbackNarrative ∧
    (generateResponse cinematicNoFields true (Except.ok "reply")).isCinematic = false := by
  exact ⟨rfl, rfl⟩

/-- C2 amended: a cinematic_show (resp. narrative) response_type yields the
corresponding variant only when the reply also validates against the
variant fields (string show_title plus a well-formed scenes list, resp. a
string message); a validation failure, any other response_type, a reply
that is not a JSON dict, a JSON parse error, or a model-call failure all
yield the fixed fallback apology narrative, no exception reaches the
caller, and the model is invoked at most once per request. -/
theorem director_dispatch (parse : String → Option PyVal) (call : Except Unit String) :
    (∀ e, call = Except.error e → generateResponse parse true call = fallbackNarrative) ∧
    (∀ s, call = Except.ok s → parse s = Option.none →
      generateResponse parse true call = fallbackNarrative) ∧
    (∀ s v, call = Except.ok s → parse s = Option.some v → (∀ kvs, v ≠ PyVal.dict kvs) →
      generateResponse parse true call = fallbackNarrative) ∧
    (∀ s kvs, call = Except.ok s → parse s = Option.some (PyVal.dict kvs) →
      pyEqStr (pyGet kvs "response_type" PyVal.none) "cinematic_show" = true →
      generateResponse parse true call =
        (match mkCinematic kvs with
         | Option.some r => r
         | Option.none => fallbackNarrative)) ∧
    (∀ s kvs, call = Except.ok s → parse s = Option.some (PyVal.dict kvs) →
      pyEqStr (pyGet kvs "response_type" PyVal.none) "cinematic_show" = false →
      pyEqStr (pyGet kvs "response_type" PyVal.none) "narrative" = true →
      generateResponse parse true call =
        (match mkNarrative kvs with
         | Option.some r => r
         | Option.none => fallbackNarrative)) ∧
    (∀ s kvs, call = Except.ok s → parse s = Option.some (PyVal.dict kvs) →
      pyEqStr (pyGet kvs "response_type" PyVal.none) "cinematic_show" = false →
      pyEqStr (pyGet kvs "response_type" PyVal.none) "narrative" = false →
      generateResponse parse true call = fallbackNarrative) ∧
    (generateResponseCalls true ≤ 1 ∧ generateResponseCalls false = 0) := by
  refine ⟨?_, ?_, ?_, ?_, ?_, ?_, by decide, rfl⟩
  · intro e h; subst h; rfl
  · intro s h hp; subst h; simp [generateResponse, hp]
  · intro s v h hp hnd
    subst h
    cases v with
    | dict kvs => exact absurd rfl (hnd kvs)
    | none => simp [generateResponse, hp]
    | bool b => simp [generateResponse, hp]
    | num q => simp [generateResponse, hp]
    | str t => simp [generateResponse, hp]
    | list l => simp [generateResponse, hp]
  · intro s kvs h hp hc; subst h; simp [generateResponse, hp, hc]
  · intro s kvs h hp hc hn; subst h; simp [generateResponse, hp, hc, hn]
  · intro s kvs h hp hc hn; subst h; simp [generateResponse, hp, hc, hn]

/-- Witness for C2 amended: the narrative reply with message Hi yields the
narrative variant with message Hi, and a non-JSON reply yields the fallback. -/
theorem director_dispatch_witness :
    generateResponse narrativeHi true (Except.ok "reply") = DirectorResponse.narrative "Hi" ∧
    generateResponse (fun _ => Option.none) true (Except.ok "not json") = fallbackNarrative := by
  constructor
  · exact (director_dispatch narrativeHi (Except.ok "reply")).2.2.2.2.1 "reply"
      [("response_type", PyVal.str "narrative"), ("message", PyVal.str "Hi")] rfl rfl rfl rfl
  · exact (director_dispatch (fun _ => Option.none) (Except.ok "not json")).2.1 "not json" rfl rfl

theorem strAppendAssoc (a b c : String) : a ++ b ++ c = a ++ (b ++ c) :=
  String.ext (by simp [String.data_append])

theorem strAppendEmpty (s : String) : s ++ "" = s :=
  String.ext (by simp [String.data_append])

/-- Python lowercasing of a string (ASCII model of str.lower). -/
def pyLower (s : String) : String :=
  String.mk (s.data.map Char.toLower)

/-- True when the second character list begins with the first. -/
def leadsWith : List Char → List Char → Bool
  | [], _ => true
  | _ :: _, [] => false
  | c :: cs, d :: ds => c == d && leadsWith cs ds

/-- True when the pattern occurs contiguously inside the character list. -/
def listHasSub (pat : List Char) : List Char → Bool
  | [] => pat.isEmpty
  | d :: ds => leadsWith pat (d :: ds) || listHasSub pat ds

/-- Python substring test: sub in s. -/
def pyIn (sub s : String) : Bool :=
  listHasSub sub.data s.data

/-- Python str.startswith. -/
def pyStartsWith (s pat : String) : Bool :=
  leadsWith pat.data s.data

/-- Python str.endswith. -/
def pyEndsWith (s pat : String) : Bool :=
  leadsWith pat.data.reverse s.data.reverse

/-- One memory context supplied with a chat request (models.ai_models.MemoryContext). -/
structure MemoryContext where
  memory_id : String
  type : String
  description : String
deriving DecidableEq

/-- Patient context supplied with a chat request (models.ai_models.PatientContext). -/
structure PatientContext where
  name : String
  age : Option Nat
  description : String
deriving DecidableEq

/-- A chat request (models.ai_models.ChatRequest); conversation_type is an
optional string defaulting to memory_based at the transport layer. -/
structure ChatRequest where
  query : String
  context_memories : List MemoryContext
  patient_context : Option PatientContext
  conversation_type : Option String
deriving DecidableEq

/-- A memory of category photo or video. -/
def isVisual (m : MemoryContext) : Bool :=
  m.type == "photo" || m.type == "video"

/-- The visual (photo/video) memories of a request, in request order. -/
def visualMemories (req : ChatRequest) : List MemoryContext :=
  req.context_memories.filter isVisual

def baseIntro : String :=
  "You are an AI assistant for a system called \x27The Memory Palace\x27, speaking to an elderly user with memory loss. Your tone must be warm, gentle, patient, and reassuring."

def jsonStructureBlock : String :=
  "\n\n--- JSON OUTPUT STRUCTURE ---" ++
  "\nYour entire response MUST be a single, valid JSON object. Choose the appropriate format:" ++
  "\n1. NARRATIVE: \x7b\"response_type\": \"narrative\", \"message\": \"Your response\"\x7d" ++
  "\n2. CINEMATIC: \x7b\"response_type\": \"cinematic_show\", \"show_title\": \"Title\", \"scenes\": [\x7b\"memory_id\": \"id\", \"narration\": \"text\"\x7d]\x7d"

def casualModeBlock : String :=
  "\n\n--- CASUAL CONVERSATION MODE ---" ++
  "\nThe user is having a casual conversation with no specific memories provided." ++
  "\nRespond warmly and naturally using NARRATIVE format." ++
  "\nYou can ask how they\x27re feeling, what they\x27d like to talk about, or just be a friendly companion."

/-- The memory-based mode paragraph: cinematic-format instructions when any
visual memory is present, narrative instructions otherwise. -/
def memoryModeBlock (req : ChatRequest) : String :=
  let base :=
    "\n\n--- MEMORY CONVERSATION MODE ---" ++
    "\nThe user is asking about memories. Relevant memories have been provided below."
  if req.context_memories.any isVisual then
    let visual_count := (req.context_memories.filter isVisual).length
    base ++
    "\nSince " ++ Nat.repr visual_count ++ " visual memories (photos/videos) are available, use CINEMATIC format." ++
    "\nYou MUST create exactly " ++ Nat.repr visual_count ++ " scenes - one for each visual memory provided." ++
    "\nDO NOT skip any memories. Include ALL " ++ Nat.repr visual_count ++ " visual memories as separate scenes."
  else
    base ++
    "\nOnly text/voice memories are available, so use NARRATIVE format." ++
    "\nWeave the memory information naturally into your response."

/-- The fixed photo-recognition trigger query compared against request.query. -/
def overrideLiteral : String :=
  "The user showed me a photo I recognize. Please describe the following memory to them in a warm, narrative style. Do not make it a cinematic show."

def overrideBlock : String :=
  "\n\n--- PHOTO RECOGNITION OVERRIDE ---" ++
  "\nThis is a specific photo the user showed. Use NARRATIVE format to describe this specific memory warmly."

def rulesBlock : String :=
  "\n\n--- IMPORTANT RULES ---" ++
  "\n- Base responses ONLY on the provided memory descriptions and Patient Status notes." ++
  "\n- If a person\x27s relationship is in parentheses (e.g., \x27Kate (Daughter)\x27), use it in your narration, for example, by saying \x27your daughter, Kate\x27." ++
  "\n- CRITICAL: If any memory description refers to \x27You\x27, it means the patient. Treat \x27You\x27 as referring to the patient and respond accordingly." ++
  "\n- For cinematic shows: memory_id must match exactly from the provided memories" ++
  "\n- Show titles should be personal and address the patient in second person" ++
  "\n- IMPORTANT: For video memories, keep the narration SHORT and concise. Video narrations should be brief and to the point." ++
  "\n- DO NOT hallucinate details not present in the memory descriptions"

def patientNameOf (req : ChatRequest) : String :=
  match req.patient_context with
  | Option.some pc => pc.name
  | Option.none => ""

def patientBlock (req : ChatRequest) : String :=
  match req.patient_context with
  | Option.none => ""
  | Option.some pc =>
    "\n\n--- PATIENT INFO ---\nName: " ++ pc.name ++
    (match pc.age with
     | Option.some a => if a != 0 then "\nAge: " ++ Nat.repr a else ""
     | Option.none => "") ++
    (if pc.description != "" then "\nNotes: " ++ pc.description else "")

/-- The per-memory patient presence check: a case-insensitive substring and
boundary test for the patient name or the second-person marker. -/
def patientIsPresent (patient_name : String) (mem : MemoryContext) : Bool :=
  pyIn (pyLower patient_name) (pyLower mem.description) ||
  pyIn " you " (pyLower mem.description) ||
  pyStartsWith (pyLower mem.description) "you " ||
  pyEndsWith (pyLower mem.description) " you"

def memoryEntry (patient_name : String) (i : Nat) (mem : MemoryContext) : String :=
  "\nMemory " ++ Nat.repr (i + 1) ++ " (ID: " ++ mem.memory_id ++ "):" ++ "\n" ++ mem.description ++
  (if patient_name != "" then
    (if patientIsPresent patient_name mem then
      "\nPatient Status: PRESENT. The patient, " ++ patient_name ++ ", is in this memory. You MUST refer to him as \"you\"."
     else
      "\nPatient Status: NOT PRESENT. The patient is NOT in this memory. You MUST refer to all people by their names.")
   else "") ++ "\n"

def memoryEntries (patient_name : String) : Nat → List MemoryContext → String
  | _, [] => ""
  | i, m :: rest => memoryEntry patient_name i m ++ memoryEntries patient_name (i + 1) rest

/-- One line of the mandatory scene enumeration: the scene number, the
memory identifier, its category, and the brevity instruction for videos. -/
def sceneLine (i : Nat) (mem : MemoryContext) : String :=
  "\n- Scene " ++ Nat.repr (i + 1) ++ ": memory_id \x27" ++ mem.memory_id ++ "\x27 (" ++ mem.type ++ ")" ++
  (if mem.type == "video" then " - KEEP NARRATION SHORT" else "")

def sceneLines : Nat → List MemoryContext → String
  | _, [] => ""
  | i, m :: rest => sceneLine i m ++ sceneLines (i + 1) rest

def sceneBlockHead (n : Nat) : String :=
  "\n--- MANDATORY SCENE CREATION ---" ++
  "\nYou MUST create " ++ Nat.repr n ++ " scenes using these exact memory IDs:"

def sceneBlockTail (n : Nat) : String :=
  "\nDO NOT create fewer than " ++ Nat.repr n ++ " scenes. Each visual memory MUST have its own scene."

def sceneCreationBlock (vms : List MemoryContext) : String :=
  sceneBlockHead vms.length ++ sceneLines 0 vms ++ sceneBlockTail vms.length

def relevantMemoriesHead : String := "\n\n--- RELEVANT MEMORIES ---"

def noMemoriesBlock : String :=
  "\n\n--- NO RELEVANT MEMORIES ---" ++
  "\nNo specific memories were found related to this query."

/-- The memories part of the prompt: either the no-memories notice, or the
memory listing followed, whenever visual memories exist, by the mandatory
scene-creation block (independently of conversation mode). -/
def memoriesSection (req : ChatRequest) (patient_name : String) : String :=
  if req.context_memories.isEmpty then noMemoriesBlock
  else
    relevantMemoriesHead ++ memoryEntries patient_name 0 req.context_memories ++
    (if (req.context_memories.filter isVisual).isEmpty then ""
     else sceneCreationBlock (req.context_memories.filter isVisual))

def respondFooter (req : ChatRequest) : String :=
  "\n\n--- RESPOND NOW ---" ++ "\nUser Query: \x27" ++ req.query ++ "\x27" ++
  (if req.conversation_type == Option.some "casual" then
    "\nProvide a warm, casual response using NARRATIVE format."
   else "\nProvide an appropriate response based on the memories and rules above.")

def modeBlock (req : ChatRequest) : String :=
  if req.conversation_type == Option.some "casual" then casualModeBlock
  else if req.conversation_type == Option.some "memory_based" then memoryModeBlock req
  else ""

/-- ChatService._construct_prompt: the sequential prompt concatenation of
the source, with each contiguous run of appends named as a block. -/
def constructPrompt (req : ChatRequest) : String :=
  baseIntro ++ jsonStructureBlock ++ modeBlock req ++
  (if req.query == overrideLiteral then overrideBlock else "") ++
  rulesBlock ++ patientBlock req ++ memoriesSection req (patientNameOf req) ++
  respondFooter req

/-- Concatenation of a list of strings. -/
def concatStrings : List String → String
  | [] => ""
  | s :: rest => s ++ concatStrings rest

theorem leadsWith_extend (pat s y : List Char) (h : leadsWith pat s = true) :
    leadsWith pat (s ++ y) = true := by
  induction pat generalizing s with
  | nil => rfl
  | cons c cs ih =>
    cases s with
    | nil => exact absurd h (by simp [leadsWith])
    | cons d ds =>
      simp only [leadsWith, Bool.and_eq_true] at h
      simp only [List.cons_append, leadsWith, Bool.and_eq_true]
      exact ⟨h.1, ih ds h.2⟩

theorem listHasSub_extend (pat s y : List Char) (h : listHasSub pat s = true) :
    listHasSub pat (s ++ y) = true := by
  induction s with
  | nil =>
    simp only [listHasSub, List.isEmpty_iff] at h
    subst h
    cases y with
    | nil => rfl
    | cons d ds => simp [listHasSub, leadsWith]
  | cons d ds ih =>
    simp only [listHasSub, Bool.or_eq_true] at h
    simp only [List.cons_append, listHasSub, Bool.or_eq_true]
    cases h with
    | inl h => exact Or.inl (by simpa [List.cons_append] using leadsWith_extend pat (d :: ds) y h)
    | inr h => exact Or.inr (ih h)

theorem listHasSub_shift (pat x y : List Char) (h : listHasSub pat y = true) :
    listHasSub pat (x ++ y) = true := by
  induction x with
  | nil => simpa using h
  | cons d ds ih => simp only [List.cons_append, listHasSub, Bool.or_eq_true]; exact Or.inr ih

theorem pyIn_extend (pat x y : String) (h : pyIn pat x = true) : pyIn pat (x ++ y) = true := by
  unfold pyIn at *
  rw [String.data_append]
  exact listHasSub_extend _ _ _ h

theorem pyIn_shift (pat x y : String) (h : pyIn pat y = true) : pyIn pat (x ++ y) = true := by
  unfold pyIn at *
  rw [String.data_append]
  exact listHasSub_shift _ _ _ h

theorem sceneLines_eq_concat (i : Nat) (l : List MemoryContext) :
    sceneLines i l = concatStrings ((List.enumFrom i l).map (fun e => sceneLine e.1 e.2)) := by
  induction l generalizing i with
  | nil => rfl
  | cons m rest ih => simp [sceneLines, List.enumFrom, concatStrings, ih]

/-- Whenever memories are supplied and at least one is visual, the prompt
contains the mandatory scene-creation block as a contiguous segment,
regardless of conversation mode and query. -/
theorem constructPrompt_has_scene_block (req : ChatRequest)
    (hm : req.context_memories ≠ []) (hv : visualMemories req ≠ []) :
    ∃ p q, constructPrompt req = p ++ sceneCreationBlock (visualMemories req) ++ q := by
  have hm2 : req.context_memories.isEmpty = false := by
    cases h : req.context_memories with
    | nil => exact absurd h hm
    | cons a l => rfl
  have hv2 : (req.context_memories.filter isVisual).isEmpty = false := by
    unfold visualMemories at hv
    cases h : req.context_memories.filter isVisual with
    | nil => exact absurd h hv
    | cons a l => rfl
  refine ⟨baseIntro ++ jsonStructureBlock ++ modeBlock req ++
      (if req.query == overrideLiteral then overrideBlock else "") ++
      rulesBlock ++ patientBlock req ++ relevantMemoriesHead ++
      memoryEntries (patientNameOf req) 0 req.context_memories,
    respondFooter req, ?_⟩
  simp [constructPrompt, memoriesSection, visualMemories, hm2, hv2, strAppendAssoc]

/-- C3: for every request whose conversation mode is not casual, whose query
is not the photo-recognition override literal, and which carries at least
one visual memory, the prompt contains the scene enumeration: one scene
line per visual memory in order, each naming that memory identifier and its
category, with the brevity instruction added for video memories. -/
theorem chat_scene_enumeration (req : ChatRequest)
    (_h1 : req.conversation_type ≠ Option.some "casual")
    (_h2 : req.query ≠ overrideLiteral)
    (hv : visualMemories req ≠ []) :
    (∃ p q, constructPrompt req = p ++ sceneLines 0 (visualMemories req) ++ q) ∧
    sceneLines 0 (visualMemories req) =
      concatStrings ((List.enumFrom 0 (visualMemories req)).map (fun e => sceneLine e.1 e.2)) ∧
    ((List.enumFrom 0 (visualMemories req)).map (fun e => sceneLine e.1 e.2)).length =
      (visualMemories req).length ∧
    (∀ i m, (∃ a b, sceneLine i m = a ++ m.memory_id ++ b) ∧
      (∃ a b, sceneLine i m = a ++ m.type ++ b) ∧
      (m.type = "video" → ∃ a, sceneLine i m = a ++ " - KEEP NARRATION SHORT")) := by
  have hm : req.context_memories ≠ [] := by
    intro h
    apply hv
    unfold visualMemories
    rw [h]
    rfl
  obtain ⟨p, q, hpq⟩ := constructPrompt_has_scene_block req hm hv
  refine ⟨⟨p ++ sceneBlockHead (visualMemories req).length,
      sceneBlockTail (visualMemories req).length ++ q, ?_⟩,
    sceneLines_eq_concat 0 _, by simp, ?_⟩
  · rw [hpq]
    unfold sceneCreationBlock
    simp [strAppendAssoc]
  · intro i m
    refine ⟨⟨"\n- Scene " ++ Nat.repr (i + 1) ++ ": memory_id \x27",
        "\x27 (" ++ m.type ++ ")" ++
          (if m.type == "video" then " - KEEP NARRATION SHORT" else ""), ?_⟩,
      ⟨"\n- Scene " ++ Nat.repr (i + 1) ++ ": memory_id \x27" ++ m.memory_id ++ "\x27 (",
        ")" ++ (if m.type == "video" then " - KEEP NARRATION SHORT" else ""), ?_⟩, ?_⟩
    · simp [sceneLine, strAppendAssoc]
    · simp [sceneLine, strAppendAssoc]
    · intro hvid
      refine ⟨"\n- Scene " ++ Nat.repr (i + 1) ++ ": memory_id \x27" ++ m.memory_id ++
        "\x27 (" ++ m.type ++ ")", ?_⟩
      simp [sceneLine, hvid, strAppendAssoc]

/-- A memory-based request carrying one photo and one video memory. -/
def memoryBasedReq : ChatRequest :=
  { query := "Show me the beach day"
    context_memories :=
      [{ memory_id := "m1", type := "photo", description := "A day at the beach" },
       { memory_id := "m2", type := "video", description := "Dancing at the party" }]
    patient_context := Option.none
    conversation_type := Option.some "memory_based" }

/-- Witness for C3 at a concrete two-visual-memory request. -/
theorem chat_scene_enumeration_witness :
    sceneLines 0 (visualMemories memoryBasedReq) =
      concatStrings ((List.enumFrom 0 (visualMemories memoryBasedReq)).map
        (fun e => sceneLine e.1 e.2)) ∧
    ((List.enumFrom 0 (visualMemories memoryBasedReq)).map
        (fun e => sceneLine e.1 e.2)).length =
      (visualMemories memoryBasedReq).length :=
  ⟨(chat_scene_enumeration memoryBasedReq (by decide) (by decide) (by decide)).2.1,
   (chat_scene_enumeration memoryBasedReq (by decide) (by decide) (by decide)).2.2.1⟩

/-- A casual-mode request that nevertheless carries a photo memory. -/
def casualPhotoReq : ChatRequest :=
  { query := "Who is in this photo"
    context_memories := [{ memory_id := "m1", type := "photo", description := "A day at the beach" }]
    patient_context := Option.none
    conversation_type := Option.some "casual" }

/-- Counterexample to C4: in casual mode with a photo memory supplied, the
constructed prompt does contain the mandatory scene-creation instruction,
so it is not free of scene-creation requirements. -/
theorem chat_casual_cex :
    pyIn "--- MANDATORY SCENE CREATION ---" (constructPrompt casualPhotoReq) = true ∧
    pyIn "You MUST create 1 scenes using these exact memory IDs:"
      (constructPrompt casualPhotoReq) = true := by
  exact ⟨rfl, rfl⟩

/-- C4 amended: in casual mode the mode paragraph and the closing
instruction request narrative format, and no scene-creation block is
appended when no visual memory is supplied; when visual memories are
supplied the mandatory scene-creation block is still appended, exactly as
for the other modes. -/
theorem chat_casual_amended (req : ChatRequest)
    (h : req.conversation_type = Option.some "casual") :
    modeBlock req = casualModeBlock ∧
    (∃ p q, constructPrompt req = p ++ casualModeBlock ++ q) ∧
    (∃ p q, constructPrompt req =
      p ++ "\nProvide a warm, casual response using NARRATIVE format." ++ q) ∧
    (visualMemories req = [] →
      memoriesSection req (patientNameOf req) =
        (if req.context_memories.isEmpty then noMemoriesBlock
         else relevantMemoriesHead ++
           memoryEntries (patientNameOf req) 0 req.context_memories)) ∧
    (visualMemories req ≠ [] → req.context_memories ≠ [] →
      ∃ p q, constructPrompt req = p ++ sceneCreationBlock (visualMemories req) ++ q) := by
  have hmode : modeBlock req = casualModeBlock := by simp [modeBlock, h]
  refine ⟨hmode, ?_, ?_, ?_, ?_⟩
  · refine ⟨baseIntro ++ jsonStructureBlock,
      (if req.query == overrideLiteral then overrideBlock else "") ++ rulesBlock ++
        patientBlock req ++ memoriesSection req (patientNameOf req) ++ respondFooter req, ?_⟩
    simp [constructPrompt, hmode, strAppendAssoc]
  · refine ⟨baseIntro ++ jsonStructureBlock ++ modeBlock req ++
      (if req.query == overrideLiteral then overrideBlock else "") ++ rulesBlock ++
      patientBlock req ++ memoriesSection req (patientNameOf req) ++
      ("\n\n--- RESPOND NOW ---" ++ "\nUser Query: \x27" ++ req.query ++ "\x27"), "", ?_⟩
    simp [constructPrompt, respondFooter, h, strAppendAssoc, strAppendEmpty]
  · intro hv
    unfold visualMemories at hv
    simp [memoriesSection, hv, strAppendEmpty]
  · intro hv hm
    exact constructPrompt_has_scene_block req hm hv

/-- A casual-mode request with no memories. -/
def casualNoMemReq : ChatRequest :=
  { query := "Hello"
    context_memories := []
    patient_context := Option.none
    conversation_type := Option.some "casual" }

/-- Witness for C4 amended at a concrete casual request without memories. -/
theorem chat_casual_amended_witness :
    modeBlock casualNoMemReq = casualModeBlock ∧
    memoriesSection casualNoMemReq (patientNameOf casualNoMemReq) =
      (if casualNoMemReq.context_memories.isEmpty then noMemoriesBlock
       else relevantMemoriesHead ++
         memoryEntries (patientNameOf casualNoMemReq) 0 casualNoMemReq.context_memories) :=
  ⟨(chat_casual_amended casualNoMemReq rfl).1,
   (chat_casual_amended casualNoMemReq rfl).2.2.2.1 rfl⟩

/-- A request with the photo-recognition override query, memory-based mode,
and one photo memory. -/
def overridePhotoReq : ChatRequest :=
  { query := overrideLiteral
    context_memories := [{ memory_id := "m1", type := "photo", description := "A day at the beach" }]
    patient_context := Option.none
    conversation_type := Option.some "memory_based" }

/-- Counterexample to C5: with the override query, memory-based mode and a
photo memory, the prompt still contains both the cinematic-format
instruction and the mandatory scene-creation block, so the override does
not exclude cinematic and scene-creation requirements from the prompt. -/
theorem chat_override_cex :
    pyIn "use CINEMATIC format" (constructPrompt overridePhotoReq) = true ∧
    pyIn "--- MANDATORY SCENE CREATION ---" (constructPrompt overridePhotoReq) = true ∧
    pyIn "--- PHOTO RECOGNITION OVERRIDE ---" (constructPrompt overridePhotoReq) = true := by
  exact ⟨rfl, rfl, rfl⟩

/-- C5 amended: the override query appends the photo-recognition override
paragraph requesting narrative format, but suppresses nothing: in
memory-based mode the mode paragraph (with its cinematic-format
instruction when visual memories are present) still appears, the mandatory
scene-creation block is still appended when visual memories are present,
and only a request without visual memories gets a prompt with no
scene-creation block. -/
theorem chat_override_amended (req : ChatRequest)
    (h : req.query = overrideLiteral) :
    (∃ p q, constructPrompt req = p ++ overrideBlock ++ q) ∧
    (req.context_memories.any isVisual = true →
      pyIn "use CINEMATIC format." (memoryModeBlock req) = true) ∧
    (req.conversation_type = Option.some "memory_based" →
      ∃ p q, constructPrompt req = p ++ memoryModeBlock req ++ q) ∧
    (visualMemories req ≠ [] → req.context_memories ≠ [] →
      ∃ p q, constructPrompt req = p ++ sceneCreationBlock (visualMemories req) ++ q) ∧
    (visualMemories req = [] →
      memoriesSection req (patientNameOf req) =
        (if req.context_memories.isEmpty then noMemoriesBlock
         else relevantMemoriesHead ++
           memoryEntries (patientNameOf req) 0 req.context_memories)) := by
  refine ⟨?_, ?_, ?_, ?_, ?_⟩
  · refine ⟨baseIntro ++ jsonStructureBlock ++ modeBlock req,
      rulesBlock ++ patientBlock req ++ memoriesSection req (patientNameOf req) ++
        respondFooter req, ?_⟩
    have hq : (req.query == overrideLiteral) = true := by simp [h]
    simp [constructPrompt, hq, strAppendAssoc]
  · intro ha
    simp only [memoryModeBlock, ha, if_true]
    rw [show (" visual memories (photos/videos) are available, use CINEMATIC format." : String) =
      " visual memories (photos/videos) are available, " ++ "use CINEMATIC format." from rfl]
    simp only [strAppendAssoc]
    apply pyIn_shift
    apply pyIn_shift
    apply pyIn_shift
    apply pyIn_shift
    apply pyIn_shift
    apply pyIn_extend
    rfl
  · intro hmode
    refine ⟨baseIntro ++ jsonStructureBlock,
      (if req.query == overrideLiteral then overrideBlock else "") ++ rulesBlock ++
        patientBlock req ++ memoriesSection req (patientNameOf req) ++ respondFooter req, ?_⟩
    have : modeBlock req = memoryModeBlock req := by simp [modeBlock, hmode]
    simp [constructPrompt, this, strAppendAssoc]
  · intro hv hm
    exact constructPrompt_has_scene_block req hm hv
  · intro hv
    unfold visualMemories at hv
    simp [memoriesSection, hv, strAppendEmpty]

/-- A request with the override query, memory-based mode, and no memories. -/
def overrideNoMemReq : ChatRequest :=
  { query := overrideLiteral
    context_memories := []
    patient_context := Option.none
    conversation_type := Option.some "memory_based" }

/-- Witness for C5 amended: the cinematic instruction persists with a photo
memory, and without visual memories the memories part has no scene block. -/
theorem chat_override_amended_witness :
    pyIn "use CINEMATIC format." (memoryModeBlock overridePhotoReq) = true ∧
    memoriesSection overrideNoMemReq (patientNameOf overrideNoMemReq) =
      (if overrideNoMemReq.context_memories.isEmpty then noMemoriesBlock
       else relevantMemoriesHead ++
         memoryEntries (patientNameOf overrideNoMemReq) 0 overrideNoMemReq.context_memories) :=
  ⟨(chat_override_amended overridePhotoReq rfl).2.1 rfl,
   (chat_override_amended overrideNoMemReq rfl).2.2.2.2 rfl⟩

/-- One entry of the known-faces payload sent with a recognition request. -/
structure KnownFacePayload where
  person_id : Int
  name : String
  avatar_base_64 : String

/-- The metadata dictionary kept for a successfully encoded reference face. -/
structure FaceMeta where
  person_id : Int
  name : String
deriving DecidableEq

/-- The reference-preparation loop of identify_people: decode and encode
each avatar (the encode parameter models base64 decoding, image loading and
face_encodings; Option.none covers both a raised exception and an image
with no detectable face) and retain encoding and metadata in payload
order. -/
def buildKnownFaces {Enc : Type} (encode : String → Option Enc)
    (payload : List KnownFacePayload) : List (Enc × FaceMeta) :=
  payload.filterMap (fun p =>
    (encode p.avatar_base_64).map (fun e => (e, { person_id := p.person_id, name := p.name })))

/-- The matching loop of identify_people over the probe-face encodings, with
the recognized_people accumulator: compare_faces followed by
matches.index(True) is the first reference whose comparison succeeds,
modelled by List.find? on the retained (encoding, metadata) pairs; an
identity already recorded is skipped. -/
def recognizeGo {Enc : Type} (compare : Enc → Enc → Bool)
    (known : List (Enc × FaceMeta)) (acc : List FaceMeta) : List Enc → List FaceMeta
  | [] => acc
  | fe :: rest =>
    match known.find? (fun kp => compare kp.1 fe) with
    | Option.some kp =>
      if acc.any (fun p => p.person_id == kp.2.person_id) then
        recognizeGo compare known acc rest
      else recognizeGo compare known (acc ++ [kp.2]) rest
    | Option.none => recognizeGo compare known acc rest

def recognizeLoop {Enc : Type} (compare : Enc → Enc → Bool)
    (known : List (Enc × FaceMeta)) (probes : List Enc) : List FaceMeta :=
  recognizeGo compare known [] probes

/-- FaceRecognitionService.identify_people.  The probe-processing parameter
models base64 decode, image load, face_locations and face_encodings of the
probe photo: Option.none for any raised exception (caught and turned into
an empty result), otherwise the list of detected face encodings. -/
def identifyPeople {Enc : Type} (encode : String → Option Enc)
    (compare : Enc → Enc → Bool) (ready : Bool) (photo : String)
    (processProbe : String → Option (List Enc)) (payload : List KnownFacePayload) :
    Except String (List FaceMeta) :=
  if !ready then Except.error "Face Recognition service is not ready."
  else if payload.isEmpty then Except.ok []
  else
    let known := buildKnownFaces encode payload
    if known.isEmpty then Except.ok []
    else
      match processProbe photo with
      | Option.none => Except.ok []
      | Option.some probes => Except.ok (recognizeLoop compare known probes)

/-- The property that m was recorded for some probe face as the first
matching reference in reference order. -/
def FirstMatchProp {Enc : Type} (compare : Enc → Enc → Bool)
    (known : List (Enc × FaceMeta)) (probes : List Enc) (m : FaceMeta) : Prop :=
  ∃ fe ∈ probes, ∃ l₁ kp l₂, known = l₁ ++ kp :: l₂ ∧ kp.2 = m ∧
    compare kp.1 fe = true ∧ ∀ q ∈ l₁, compare q.1 fe = false

theorem find?_first {α : Type} (p : α → Bool) (l : List α) (x : α)
    (h : l.find? p = Option.some x) :
    ∃ l₁ l₂, l = l₁ ++ x :: l₂ ∧ p x = true ∧ ∀ y ∈ l₁, p y = false := by
  induction l with
  | nil => cases h
  | cons a as ih =>
    by_cases hp : p a = true
    · rw [List.find?_cons_of_pos _ hp] at h
      cases h
      exact ⟨[], as, rfl, hp, by simp⟩
    · have hp' : p a = false := by simpa using hp
      rw [List.find?_cons_of_neg _ (by simp [hp'])] at h
      obtain ⟨l₁, l₂, hl, hx, hall⟩ := ih h
      refine ⟨a :: l₁, l₂, by simp [hl], hx, ?_⟩
      intro y hy
      rcases List.mem_cons.1 hy with rfl | hy
      · exact hp'
      · exact hall y hy

theorem firstMatch_weaken {Enc : Type} (compare : Enc → Enc → Bool)
    (known : List (Enc × FaceMeta)) (fe : Enc) (rest : List Enc) (m : FaceMeta)
    (h : FirstMatchProp compare known rest m) :
    FirstMatchProp compare known (fe :: rest) m := by
  obtain ⟨fe1, hfe1, hrest⟩ := h
  exact ⟨fe1, List.mem_cons_of_mem _ hfe1, hrest⟩

theorem recognizeGo_spec {Enc : Type} (compare : Enc → Enc → Bool)
    (known : List (Enc × FaceMeta)) (probes : List Enc) :
    ∀ acc : List FaceMeta, ((acc.map (fun m => m.person_id)).Nodup) →
      ((recognizeGo compare known acc probes).map (fun m => m.person_id)).Nodup ∧
      (∀ m ∈ recognizeGo compare known acc probes,
        m ∈ acc ∨ FirstMatchProp compare known probes m) := by
  induction probes with
  | nil => exact fun acc h => ⟨h, fun m hm => Or.inl hm⟩
  | cons fe rest ih =>
    intro acc hacc
    cases hf : known.find? (fun kp => compare kp.1 fe) with
    | none =>
      simp only [recognizeGo, hf]
      obtain ⟨h1, h2⟩ := ih acc hacc
      exact ⟨h1, fun m hm => (h2 m hm).imp id (firstMatch_weaken compare known fe rest m)⟩
    | some kp =>
      cases hdup : acc.any (fun p => p.person_id == kp.2.person_id) with
      | true =>
        simp only [recognizeGo, hf, hdup, if_true]
        obtain ⟨h1, h2⟩ := ih acc hacc
        exact ⟨h1, fun m hm => (h2 m hm).imp id (firstMatch_weaken compare known fe rest m)⟩
      | false =>
        simp only [recognizeGo, hf, hdup, if_false]
        have hnotin : kp.2.person_id ∉ acc.map (fun m => m.person_id) := by
          intro hmem
          obtain ⟨p, hp, hpe⟩ := List.mem_map.1 hmem
          have := List.any_eq_false.1 hdup p hp
          simp [hpe] at this
        have hacc2 : ((acc ++ [kp.2]).map (fun m => m.person_id)).Nodup := by
          rw [List.map_append, List.nodup_append]
          exact ⟨hacc, by simp, by simpa [List.disjoint_singleton] using hnotin⟩
        obtain ⟨h1, h2⟩ := ih (acc ++ [kp.2]) hacc2
        refine ⟨h1, fun m hm => ?_⟩
        rcases h2 m hm with hmem | hP
        · rcases List.mem_append.1 hmem with hmem2 | hmem2
          · exact Or.inl hmem2
          · have hm2 : m = kp.2 := by simpa using hmem2
            subst hm2
            obtain ⟨l₁, l₂, hl, hx, hall⟩ := find?_first _ known kp hf
            exact Or.inr ⟨fe, List.mem_cons_self _ _, l₁, kp, l₂, hl, rfl, hx, hall⟩
        · exact Or.inr (firstMatch_weaken compare known fe rest m hP)

/-- C6: every identity in the result of the matching loop was recorded for
some probe face as the first reference in reference order whose comparison
succeeds (not the closest reference), and the identities of the result are
pairwise distinct, so each matched identity appears exactly once. -/
theorem face_first_match_dedup {Enc : Type} (compare : Enc → Enc → Bool)
    (known : List (Enc × FaceMeta)) (probes : List Enc) :
    ((recognizeLoop compare known probes).map (fun m => m.person_id)).Nodup ∧
    (∀ m ∈ recognizeLoop compare known probes,
      ∃ fe ∈ probes, ∃ l₁ kp l₂, known = l₁ ++ kp :: l₂ ∧ kp.2 = m ∧
        compare kp.1 fe = true ∧ ∀ q ∈ l₁, compare q.1 fe = false) := by
  obtain ⟨h1, h2⟩ := recognizeGo_spec compare known probes [] (by simp)
  refine ⟨h1, fun m hm => ?_⟩
  rcases h2 m hm with hmem | hP
  · cases hmem
  · exact hP

/-- C9: with the component ready, identify_people returns a value for every
input (never an error); an empty known-faces list yields the empty result
for every probe-processing behavior (the probe image is not consulted); a
probe image whose decoding, loading or encoding raises also yields the
empty result. -/
theorem identify_people_no_raise {Enc : Type} (encode : String → Option Enc)
    (compare : Enc → Enc → Bool) (photo : String)
    (processProbe : String → Option (List Enc)) (payload : List KnownFacePayload) :
    (∃ l, identifyPeople encode compare true photo processProbe payload = Except.ok l) ∧
    (payload = [] →
      identifyPeople encode compare true photo processProbe payload = Except.ok []) ∧
    (processProbe photo = Option.none →
      identifyPeople encode compare true photo processProbe payload = Except.ok []) := by
  refine ⟨?_, ?_, ?_⟩
  · by_cases hp : payload.isEmpty
    · exact ⟨[], by simp [identifyPeople, hp]⟩
    · by_cases hk : (buildKnownFaces encode payload).isEmpty
      · exact ⟨[], by simp [identifyPeople, hp, hk]⟩
      · cases hpr : processProbe photo with
        | none => exact ⟨[], by simp [identifyPeople, hp, hk, hpr]⟩
        | some probes =>
          exact ⟨recognizeLoop compare (buildKnownFaces encode payload) probes,
            by simp [identifyPeople, hp, hk, hpr]⟩
  · intro h
    subst h
    rfl
  · intro h
    by_cases hp : payload.isEmpty
    · simp [identifyPeople, hp]
    · by_cases hk : (buildKnownFaces encode payload).isEmpty
      · simp [identifyPeople, hp, hk]
      · simp [identifyPeople, hp, hk, h]

/-- Witness for C9: an empty payload and a failing probe pipeline both give
the empty result at concrete inputs. -/
theorem identify_people_no_raise_witness :
    identifyPeople (fun _ => Option.some (0 : Nat)) (fun a b => a == b) true "photo"
      (fun _ => Option.none) [] = Except.ok [] ∧
    identifyPeople (fun _ => Option.some (0 : Nat)) (fun a b => a == b) true "photo"
      (fun _ => Option.none)
      [{ person_id := 1, name := "Ana", avatar_base_64 := "abc" }] = Except.ok [] :=
  ⟨(identify_people_no_raise (fun _ => Option.some (0 : Nat)) (fun a b => a == b) "photo"
      (fun _ => Option.none) []).2.1 rfl,
   (identify_people_no_raise (fun _ => Option.some (0 : Nat)) (fun a b => a == b) "photo"
      (fun _ => Option.none)
      [{ person_id := 1, name := "Ana", avatar_base_64 := "abc" }]).2.2 rfl⟩

/-- The caption artifact prefix stripped by the vision service. -/
def captionArtifact : String := "arafed image of"

/-- Python str.capitalize: first character uppercased, all remaining
characters lowercased. -/
def pyCapitalize (s : String) : String :=
  match s.data with
  | [] => ""
  | c :: cs => String.mk (Char.toUpper c :: cs.map Char.toLower)

/-- The caption post-processing of VisionService.generate_caption: when the
caption starts (case-insensitively) with the artifact prefix, drop the
prefix and strip whitespace; then apply str.capitalize. -/
def cleanCaption (caption : String) : String :=
  let caption :=
    if pyStartsWith (pyLower caption) captionArtifact then
      pyStrip (String.mk (caption.data.drop captionArtifact.length))
    else caption
  pyCapitalize caption

/-- Modelled from the amended specification words: first character
uppercased and the remainder lowercased, after the artifact prefix (when
present case-insensitively at the start) is removed and surrounding
whitespace stripped. -/
def upperFirstLowerRest : List Char → List Char
  | [] => []
  | c :: cs => Char.toUpper c :: cs.map Char.toLower

def cleanCaptionSpec (caption : String) : String :=
  let stripped :=
    if pyStartsWith (pyLower caption) captionArtifact then
      pyStrip (String.mk (caption.data.drop captionArtifact.length))
    else caption
  String.mk (upperFirstLowerRest stripped.data)

theorem pyCapitalize_eq (s : String) :
    pyCapitalize s = String.mk (upperFirstLowerRest s.data) := by
  unfold pyCapitalize upperFirstLowerRest
  cases hs : s.data with
  | nil => rfl
  | cons c cs => rfl

/-- Counterexample to C8: for the caption a DOG (no artifact prefix), the
cleaned caption is A dog, whose remainder has been lowercased, not the
claimed A DOG with the remainder unchanged. -/
theorem vision_capitalize_cex :
    cleanCaption "a DOG" = "A dog" ∧ (cleanCaption "a DOG" == "A DOG") = false := by
  exact ⟨rfl, rfl⟩

/-- C8 amended: the returned caption is the input with the artifact prefix
(matched case-insensitively at the start) removed and surrounding
whitespace stripped when present, then with the first character uppercased
and all remaining characters lowercased (Python capitalize semantics). -/
theorem vision_caption_amended (caption : String) :
    cleanCaption caption = cleanCaptionSpec caption := by
  unfold cleanCaption cleanCaptionSpec
  exact pyCapitalize_eq _

end MemoryPalace
